import Mathlib

/-!
Formal model of the `llm-service` request-execution pipeline.

Each definition below is a shallow embedding of a function of the
TypeScript source (`src/`): machine integers become `Nat`/`Int`,
JavaScript `Map`s become association lists, thrown `ChatCompletionError`
values become the `Except` error channel, and external libraries
(`crypto.createHmac`, `ajv`, the HTTP stack) become explicit function
parameters standing for their observed outcomes.  Theorems about these
definitions settle the specification's claims.
-/

namespace LlmService

/-- Error codes, from `src/types/contracts.ts` (`enum LLMErrorCode`). -/
inductive LLMErrorCode where
  | INVALID_REQUEST
  | MODEL_NOT_FOUND
  | LLM_MODEL_NOT_CONFIGURED
  | PROVIDER_NOT_CONFIGURED
  | RATE_LIMIT_EXCEEDED
  | CONCURRENCY_LIMIT_EXCEEDED
  | PROVIDER_ERROR
  | PROVIDER_TIMEOUT
  | PROVIDER_RATE_LIMITED
  | PROVIDER_AUTH_FAILED
  | JSON_VALIDATION_FAILED
  | JSON_PARSE_FAILED
  | SCHEMA_VALIDATION_FAILED
  | INTERNAL_ERROR
  | TIMEOUT
  deriving DecidableEq, Repr

/-- A minimal JSON value universe, standing for `Record<string, any>`
payloads and schema documents. -/
inductive Json where
  | null
  | bool (b : Bool)
  | num (q : ℚ)
  | str (s : String)
  | arr (elems : List Json)
  | obj (fields : List (String × Json))
  deriving Repr

/-- One `ajv` violation as used by `JsonValidator.validateResponse`
(`err.instancePath`, `err.message`). -/
structure AjvError where
  instancePath : String
  message : String
  deriving DecidableEq, Repr

/-- Structured `details` payloads attached to errors at their creation
sites (each constructor mirrors one `details: {...}` object literal). -/
inductive ErrorDetails where
  | retryAfter (seconds : Nat)
  | model (model : String)
  | content (content : String)
  | httpStatus (statusCode : Nat) (responseText : String)
  | schemaErrors (errors : List AjvError) (json : Json)
  deriving Repr

/-- Embedding of `ChatCompletionError` from `src/types/contracts.ts`.  The source
marks `retryable` optional; every error construction site in the
repository sets it, so it is modelled as a plain `Bool` (JavaScript
treats an absent flag as `false`, exactly like `retryable := false`). -/
structure ChatCompletionError where
  code : LLMErrorCode
  message : String
  retryable : Bool
  details : Option ErrorDetails := none
  deriving Repr

/-- Embedding of `ChatMessage` from `src/types/contracts.ts`. -/
structure ChatMessage where
  role : String
  content : String
  deriving DecidableEq, Repr

/-- Token usage triple of `ChatCompletionResponse.usage`. -/
structure TokenUsage where
  promptTokens : Nat
  completionTokens : Nat
  totalTokens : Nat
  deriving DecidableEq, Repr

/-- Embedding of `ChatCompletionResponse` from `src/types/contracts.ts` (the
EigenCloud-only attestation metadata is kept as optional strings). -/
structure ChatCompletionResponse where
  text : String
  json : Option Json := none
  usage : Option TokenUsage := none
  providerRequestId : Option String := none
  model : String
  deriving Repr

/-- Embedding of `ModelDefinition` from `src/types/contracts.ts`. -/
structure ModelDefinition where
  id : String
  provider : String
  displayName : String
  model : String
  maxTokens : Nat
  supportsJsonMode : Bool
  deriving DecidableEq, Repr

/-- The numeric part of `ServiceConfig` that the pipeline core reads
(`src/types/contracts.ts`). -/
structure ServiceConfig where
  rateLimitPerUser : Int
  globalConcurrency : Int
  connectTimeout : Int
  requestTimeout : Int
  maxRetries : Int
  retryBackoffMs : Int
  port : Int
  deriving DecidableEq, Repr

/-- Embedding of `validateConfig` from `src/config` (value-constraint part): the
service refuses to start unless every listed constraint holds. -/
def validateConfig (config : ServiceConfig) : Bool :=
  (1 ≤ config.port && config.port ≤ 65535) &&
  1 ≤ config.globalConcurrency &&
  1 ≤ config.rateLimitPerUser &&
  1 ≤ config.connectTimeout &&
  1 ≤ config.requestTimeout &&
  0 ≤ config.maxRetries &&
  0 ≤ config.retryBackoffMs

namespace ConcurrencyLimiter

/-- The error thrown by `ConcurrencyLimiter.execute` when the shared
counter is already at `maxConcurrency`
(`src/utils/concurrency-limiter.ts`). -/
def concurrencyError (maxConcurrency : Nat) : ChatCompletionError :=
  { code := .CONCURRENCY_LIMIT_EXCEEDED,
    message := "Service concurrency limit reached (" ++ toString maxConcurrency
      ++ " concurrent requests)",
    retryable := true }

/-- Embedding of `ConcurrencyLimiter.execute` (`src/utils/concurrency-limiter.ts`).
The mutable field `activeRequests` is passed and returned explicitly;
`fn`'s outcome is its `Except` result.  In the admitted branch the
counter is incremented, `fn` runs, and the `finally` block decrements
the counter before the outcome (success or thrown error) propagates. -/
def execute (maxConcurrency activeRequests : Nat)
    (fn : Except ChatCompletionError α) :
    Except ChatCompletionError α × Nat :=
  if maxConcurrency ≤ activeRequests then
    (.error (concurrencyError maxConcurrency), activeRequests)
  else
    (fn, (activeRequests + 1) - 1)

/-- The counter after a sequence of completed `execute` calls, starting
from `active` in-flight requests. -/
def executeMany (maxConcurrency : Nat) (active : Nat)
    (ops : List (Except ChatCompletionError α)) : Nat :=
  ops.foldl (fun c op => (execute maxConcurrency c op).2) active

end ConcurrencyLimiter

namespace RateLimiter

/-- Embedding of `RateLimitEntry` from `src/utils/rate-limiter.ts`; times are
millisecond clock readings (`Date.now()`). -/
structure RateLimitEntry where
  count : Nat
  resetAt : Nat
  deriving DecidableEq, Repr

/-- The `Map<string, RateLimitEntry>` field `limits`, as an association
list with unique keys (`Map.set` replaces in place or appends). -/
abbrev RateLimitMap := List (String × RateLimitEntry)

/-- Embedding of `Map.get`: the entry stored for `k`, if any. -/
def mapGet (m : RateLimitMap) (k : String) : Option RateLimitEntry :=
  (m.find? (fun p => p.1 == k)).map (·.2)

/-- Embedding of `Map.set`: replace the binding of `k` if present, else append it. -/
def mapSet : RateLimitMap → String → RateLimitEntry → RateLimitMap
  | [], k, v => [(k, v)]
  | (k', v') :: rest, k, v =>
    if k' == k then (k, v) :: rest else (k', v') :: mapSet rest k v

/-- The result record of `checkLimit`. -/
structure RateLimitCheck where
  allowed : Bool
  retryAfter : Option Nat := none
  deriving DecidableEq, Repr

/-- Embedding of `RateLimiter.checkLimit` (`src/utils/rate-limiter.ts`): fixed
60-second windows.  `Math.ceil((entry.resetAt - now) / 1000)` on the
rejection branch (where `now < entry.resetAt`) is the natural-number
ceiling `(entry.resetAt - now + 999) / 1000`. -/
def checkLimit (maxRequestsPerMinute : Nat) (limits : RateLimitMap)
    (userId : String) (now : Nat) : RateLimitCheck × RateLimitMap :=
  match mapGet limits userId with
  | none =>
    ({ allowed := true },
      mapSet limits userId { count := 1, resetAt := now + 60000 })
  | some entry =>
    if entry.resetAt ≤ now then
      ({ allowed := true },
        mapSet limits userId { count := 1, resetAt := now + 60000 })
    else if maxRequestsPerMinute ≤ entry.count then
      ({ allowed := false,
         retryAfter := some ((entry.resetAt - now + 999) / 1000) }, limits)
    else
      ({ allowed := true },
        mapSet limits userId
          { count := entry.count + 1, resetAt := entry.resetAt })

end RateLimiter

namespace JsString

/-- Does `pat` occur as a contiguous sublist of the second list? -/
def listIsInfixOf (pat : List Char) : List Char → Bool
  | [] => pat.isEmpty
  | c :: cs => pat.isPrefixOf (c :: cs) || listIsInfixOf pat cs

/-- JavaScript `String.prototype.includes` with a string argument:
substring containment. -/
def includes (s pat : String) : Bool :=
  listIsInfixOf pat.data s.data

/-- JavaScript `String.prototype.startsWith`. -/
def startsWith (s pre : String) : Bool :=
  pre.data.isPrefixOf s.data

/-- Replace the first occurrence of `pat` (non-empty in every use in
this repository) by the empty string, on character lists. -/
def replaceFirstList (pat : List Char) : List Char → List Char
  | [] => []
  | c :: cs =>
    if pat.isPrefixOf (c :: cs) then (c :: cs).drop pat.length
    else c :: replaceFirstList pat cs

/-- JavaScript `String.prototype.replace` with a string pattern and the
empty replacement: only the first occurrence is removed. -/
def replace (s pat : String) : String :=
  ⟨replaceFirstList pat.data s.data⟩

/-- JavaScript `String.prototype.toUpperCase` on ASCII input: uppercase
character by character. -/
def toUpperCase (s : String) : String :=
  ⟨s.data.map Char.toUpper⟩

end JsString

namespace ModelCatalog

/-- Embedding of `ModelCatalog.getModel`: lookup by catalog id (the catalog `Map` is
keyed by id; ids in `config/models.json` are unique). -/
def getModel (models : List ModelDefinition) (id : String) :
    Option ModelDefinition :=
  models.find? (fun m => m.id == id)

/-- Embedding of `ModelCatalog.getModelByProviderAndModel`: first entry whose
`(provider, model)` pair equals the given pair literally. -/
def getModelByProviderAndModel (models : List ModelDefinition)
    (provider model : String) : Option ModelDefinition :=
  models.find? (fun m => m.provider == provider && m.model == model)

end ModelCatalog

namespace JsonValidator

/-- Result record of `JsonValidator.validateResponse`. -/
structure ValidationResult where
  valid : Bool
  error : Option ChatCompletionError := none

/-- One formatted violation:
`` `${err.instancePath || "root"} ${err.message}` ``. -/
def formatError (err : AjvError) : String :=
  (if err.instancePath == "" then "root" else err.instancePath)
    ++ " " ++ err.message

/-- Embedding of `JsonValidator.validateResponse` (`src/utils/json-validator.ts`).
The compiled `ajv` validator (an external library, configured with
`allErrors: true`) is the parameter `ajvValidate`, giving the full list
of violations of `json` against `schema`; the payload is valid exactly
when that list is empty.  On failure every violation is formatted and
joined with `"; "` (the `|| "Unknown validation error"` fallback covers
an empty join, as in the source). -/
def validateResponse (ajvValidate : Json → Json → List AjvError)
    (json schema : Json) : ValidationResult :=
  let errs := ajvValidate json schema
  if errs.isEmpty then { valid := true }
  else
    let joined := String.intercalate "; " (errs.map formatError)
    let errors := if joined == "" then "Unknown validation error" else joined
    { valid := false,
      error := some
        { code := .SCHEMA_VALIDATION_FAILED,
          message := "JSON response does not match schema: " ++ errors,
          retryable := false,
          details := some (.schemaErrors errs json) } }

end JsonValidator

namespace ChatService

/-- The retry-policy slice of `ServiceConfig` used by
`ChatService.executeWithRetry`. -/
structure RetryConfig where
  maxRetries : Nat
  retryBackoffMs : Nat
  deriving DecidableEq, Repr

/-- The body of `executeWithRetry`'s `try` block for one attempt:
dispatch to the provider client (`clientChat attempt` is the outcome of
the attempt with 1-indexed number `attempt`), then, if a response schema
was supplied and the adapter returned parsed JSON, route the payload
through `JsonValidator.validateResponse` and throw its error on
failure. -/
def attemptOnce (ajvValidate : Json → Json → List AjvError)
    (responseSchema : Option Json)
    (clientChat : Nat → Except ChatCompletionError ChatCompletionResponse)
    (attempt : Nat) : Except ChatCompletionError ChatCompletionResponse :=
  match clientChat attempt with
  | .error e => .error e
  | .ok response =>
    match responseSchema, response.json with
    | some schema, some j =>
      match JsonValidator.validateResponse ajvValidate j schema with
      | { valid := false, error := some e } => .error e
      | _ => .ok response
    | _, _ => .ok response

/-- Embedding of `ChatService.executeWithRetry` (`src/services/chat.service.ts`).
On a caught error: rethrow when `!chatError.retryable` or
`attempt >= this.config.maxRetries` (the two `if` tests mirror the
short-circuit `||`); otherwise wait `retryBackoffMs * 2 ^ (attempt - 1)`
milliseconds and recurse with `attempt + 1`.  Returns the final outcome
together with the list of backoff delays slept, in order. -/
def executeWithRetry (cfg : RetryConfig)
    (ajvValidate : Json → Json → List AjvError)
    (responseSchema : Option Json)
    (clientChat : Nat → Except ChatCompletionError ChatCompletionResponse)
    (attempt : Nat) :
    Except ChatCompletionError ChatCompletionResponse × List Nat :=
  match attemptOnce ajvValidate responseSchema clientChat attempt with
  | .ok response => (.ok response, [])
  | .error e =>
    if e.retryable = false then (.error e, [])
    else if h : cfg.maxRetries ≤ attempt then (.error e, [])
    else
      let backoffMs := cfg.retryBackoffMs * 2 ^ (attempt - 1)
      let rest := executeWithRetry cfg ajvValidate responseSchema clientChat
        (attempt + 1)
      (rest.1, backoffMs :: rest.2)
  termination_by cfg.maxRetries - attempt
  decreasing_by omega

/-- Embedding of `ChatService.mapModelIdToCatalogId` (`src/services/chat.service.ts`):
frontend alias normalization.  A string that already looks like a
catalog id (contains `-`, no `:`) passes through; `openrouter:<name>`
becomes `openrouter-<name>-free`; `gpt-5-nano` becomes `openai-chatgpt`;
`eigencloud:<name>` becomes `eigencloud-<name>`; anything else is
returned unchanged. -/
def mapModelIdToCatalogId (model provider : String) : String :=
  if JsString.includes model "-" && !(JsString.includes model ":") then
    model
  else if provider == "openrouter" && JsString.startsWith model "openrouter:" then
    "openrouter-" ++ JsString.replace model "openrouter:" ++ "-free"
  else if provider == "openai" && model == "gpt-5-nano" then
    "openai-chatgpt"
  else if provider == "eigencloud" && JsString.startsWith model "eigencloud:" then
    "eigencloud-" ++ JsString.replace model "eigencloud:"
  else
    model

/-- The model-resolution block at the top of `ChatService.chat`: look
the normalized alias up as a catalog id, and if that misses, fall back
to the literal `(provider, model)` catalog scan. -/
def modelResolution (catalog : List ModelDefinition) (provider model : String) :
    Option ModelDefinition :=
  match ModelCatalog.getModel catalog (mapModelIdToCatalogId model provider) with
  | some d => some d
  | none => ModelCatalog.getModelByProviderAndModel catalog provider model

/-- Embedding of `ChatCompletionRequest` from `src/types/contracts.ts`. -/
structure ChatCompletionRequest where
  provider : String
  model : String
  messages : List ChatMessage
  temperature : Option ℚ := none
  maxOutputTokens : Option Nat := none
  responseSchema : Option Json := none
  requestId : String
  userId : String

/-- Embedding of `ChatService.chat` (`src/services/chat.service.ts`): alias
normalization, catalog lookup (by id, then by `(provider, model)`
pair), `MODEL_NOT_FOUND` on both failing, then the per-caller rate
check, then the concurrency gate around the retrying dispatch of the
catalog entry's upstream `model` string.  The provider client (selected
by `getClient`) is the parameter `clientChat`, applied to the dispatched
model string and the attempt number.  Returns the outcome together with
the rate-limiter map and the concurrency counter after the call.  In the
rate-rejection branch `checkLimit` always reports `some retryAfter`; the
`getD 0` only renders that value into the message. -/
def chat (catalog : List ModelDefinition) (cfg : RetryConfig)
    (rateLimitPerUser globalConcurrency : Nat)
    (ajvValidate : Json → Json → List AjvError)
    (clientChat : String → Nat → Except ChatCompletionError ChatCompletionResponse)
    (limits : RateLimiter.RateLimitMap) (activeRequests : Nat)
    (req : ChatCompletionRequest) (now : Nat) :
    Except ChatCompletionError ChatCompletionResponse
      × RateLimiter.RateLimitMap × Nat :=
  match modelResolution catalog req.provider req.model with
  | none =>
    (.error { code := .MODEL_NOT_FOUND,
              message := "Model not found: " ++ req.provider ++ "/" ++ req.model,
              retryable := false },
     limits, activeRequests)
  | some modelDef =>
    let actualModel := modelDef.model
    let rateRes := RateLimiter.checkLimit rateLimitPerUser limits req.userId now
    if rateRes.1.allowed = false then
      (.error { code := .RATE_LIMIT_EXCEEDED,
                message := "Rate limit exceeded for user. Try again in "
                  ++ toString (rateRes.1.retryAfter.getD 0) ++ " seconds",
                retryable := true,
                details := rateRes.1.retryAfter.map ErrorDetails.retryAfter },
       rateRes.2, activeRequests)
    else
      let gateRes := ConcurrencyLimiter.execute globalConcurrency activeRequests
        (executeWithRetry cfg ajvValidate req.responseSchema
          (clientChat actualModel) 1).1
      (gateRes.1, rateRes.2, gateRes.2)

end ChatService

namespace Hmac

/-- Value of one hexadecimal digit, case-insensitive (as in Node's
`Buffer.from(string, "hex")`). -/
def hexDigit (c : Char) : Option Nat :=
  if '0' ≤ c ∧ c ≤ '9' then some (c.toNat - '0'.toNat)
  else if 'a' ≤ c ∧ c ≤ 'f' then some (c.toNat - 'a'.toNat + 10)
  else if 'A' ≤ c ∧ c ≤ 'F' then some (c.toNat - 'A'.toNat + 10)
  else none

/-- Embedding of `Buffer.from(s, "hex")` on character lists: decode two hex digits
per byte, stopping at the first invalid pair (a trailing odd digit is
likewise dropped). -/
def hexDecodeList : List Char → List Nat
  | c1 :: c2 :: rest =>
    match hexDigit c1, hexDigit c2 with
    | some hi, some lo => (16 * hi + lo) :: hexDecodeList rest
    | _, _ => []
  | _ => []

/-- Embedding of `Buffer.from(s, "hex")`: the byte sequence a string decodes to. -/
def hexDecode (s : String) : List Nat :=
  hexDecodeList s.data

/-- JavaScript whitespace skipped by `parseInt`. -/
def isJsWhitespace (c : Char) : Bool :=
  c == ' ' || c == '\t' || c == '\n' || c == '\r'

/-- JavaScript `parseInt(s, 10)`: skip leading whitespace, read an
optional sign and then the longest leading run of decimal digits;
`none` stands for `NaN` (no digits). Trailing junk is ignored. -/
def parseIntJS (s : String) : Option Int :=
  let t := s.data.dropWhile isJsWhitespace
  let signed : Int × List Char :=
    match t with
    | '-' :: rest => (-1, rest)
    | '+' :: rest => (1, rest)
    | _ => (1, t)
  let digits := signed.2.takeWhile Char.isDigit
  if digits.isEmpty then none
  else some (signed.1 *
    (digits.foldl (fun acc c => 10 * acc + (c.toNat - '0'.toNat)) 0 : Nat))

/-- Embedding of `TIMESTAMP_TOLERANCE_MS = 5 * 60 * 1000` (`src/utils/hmac.ts`). -/
def TIMESTAMP_TOLERANCE_MS : Nat := 5 * 60 * 1000

/-- The signed payload
`` `${ts}:${method.toUpperCase()}:${path}:${body}` ``. -/
def payloadOf (method path body ts : String) : String :=
  ts ++ ":" ++ JsString.toUpperCase method ++ ":" ++ path ++ ":" ++ body

/-- Embedding of `SignedRequest` from `src/utils/hmac.ts`. -/
structure SignedRequest where
  timestamp : String
  signature : String
  deriving DecidableEq, Repr

/-- Embedding of `signRequest` (`src/utils/hmac.ts`).  The call
`crypto.createHmac("sha256", secret).update(payload).digest("hex")` is
an external primitive, abstracted as the parameter `mac` mapping
`(secret, payload)` to the hex digest string.  The timestamp is taken
explicitly (the source defaults it to `Date.now().toString()`). -/
def signRequest (mac : String → String → String)
    (secret method path body ts : String) : SignedRequest :=
  { timestamp := ts, signature := mac secret (payloadOf method path body ts) }

/-- Result record of `verifyRequest`. -/
structure VerifyResult where
  valid : Bool
  error : Option String := none
  deriving DecidableEq, Repr

/-- Embedding of `verifyRequest` (`src/utils/hmac.ts`): parse the claimed timestamp
with `parseInt`, reject when it is `NaN` or farther than the tolerance
from `now`, recompute the signature via `signRequest`, hex-decode both
signatures into byte buffers and reject on unequal lengths or unequal
contents (`crypto.timingSafeEqual` compares equal-length buffers). -/
def verifyRequest (mac : String → String → String)
    (secret method path body timestamp signature : String) (now : Int) :
    VerifyResult :=
  match parseIntJS timestamp with
  | none => { valid := false, error := some "Invalid timestamp format" }
  | some requestTime =>
    if TIMESTAMP_TOLERANCE_MS < (now - requestTime).natAbs then
      { valid := false,
        error := some "Request expired or timestamp too far in future" }
    else
      let expectedSignature :=
        (signRequest mac secret method path body timestamp).signature
      let sigBuffer := hexDecode signature
      let expectedBuffer := hexDecode expectedSignature
      if sigBuffer.length ≠ expectedBuffer.length then
        { valid := false, error := some "Invalid signature" }
      else if sigBuffer ≠ expectedBuffer then
        { valid := false, error := some "Invalid signature" }
      else
        { valid := true }

end Hmac

/-- The outcome of `JSON.parse` on an upstream error body followed by
the access `errorBody.error?.message`: `.unparseable` when `JSON.parse`
threw, `.parsedWithout` when the body parsed but carries no
`error.message`, `.parsedWith m` when it carries the string `m`. -/
inductive ErrorBodyParse where
  | unparseable
  | parsedWithout
  | parsedWith (m : String)
  deriving DecidableEq, Repr

/-- The HTTP-error classifier shared verbatim (up to the provider name
in the default message) by `OpenRouterClient.handleHttpError` and
`EigenCloudClient.handleHttpError`.  Sequential classification: message
defaults to `` `<provider> HTTP ${statusCode}` `` and is replaced by
`errorBody.error?.message` when that is truthy; the code starts as
`PROVIDER_ERROR` / non-retryable, `429` switches to
`PROVIDER_RATE_LIMITED` retryable, `401`/`403` switch to
`PROVIDER_AUTH_FAILED`, and any status `>= 500` sets retryable. -/
def handleHttpErrorCore (providerName : String) (statusCode : Nat)
    (responseText : String) (parsed : ErrorBodyParse) : ChatCompletionError :=
  let defaultMessage := providerName ++ " HTTP " ++ toString statusCode
  let errorMessage :=
    match parsed with
    | .parsedWith m => if m == "" then defaultMessage else m
    | _ => defaultMessage
  let errorCode :=
    if statusCode == 429 then LLMErrorCode.PROVIDER_RATE_LIMITED
    else if statusCode == 401 || statusCode == 403 then
      LLMErrorCode.PROVIDER_AUTH_FAILED
    else LLMErrorCode.PROVIDER_ERROR
  let retryable := statusCode == 429 || decide (500 ≤ statusCode)
  { code := errorCode, message := errorMessage, retryable := retryable,
    details := some (.httpStatus statusCode responseText) }

namespace OpenRouterClient

/-- Embedding of `OpenRouterClient.handleHttpError`
(`src/providers/openrouter-client.ts`). -/
def handleHttpError (statusCode : Nat) (responseText : String)
    (parsed : ErrorBodyParse) : ChatCompletionError :=
  handleHttpErrorCore "OpenRouter" statusCode responseText parsed

/-- The request body `OpenRouterClient.chat` sends upstream
(`response_format: { type: "json_object" }` is flagged as a Bool). -/
structure RequestBody where
  model : String
  messages : List ChatMessage
  temperature : ℚ
  max_tokens : Option Nat
  response_format_json_object : Bool
  deriving Repr

/-- Embedding of `OpenRouterClient.chat` up to (but not including) the network call:
a model still carrying the `openrouter:` placeholder prefix is rejected
with a non-retryable `LLM_MODEL_NOT_CONFIGURED` error before any
request is issued; otherwise the upstream request body is built
(`if (maxTokens)` keeps `max_tokens` only for a truthy, i.e. non-zero,
value). -/
def chatPreflight (model : String) (messages : List ChatMessage)
    (temperature : ℚ) (maxTokens : Option Nat)
    (responseSchema : Option Json) :
    Except ChatCompletionError RequestBody :=
  if JsString.startsWith model "openrouter:" then
    .error { code := .LLM_MODEL_NOT_CONFIGURED,
             message := "OpenRouter model placeholder \"" ++ model
               ++ "\" must be replaced with a real OpenRouter model ID",
             retryable := false,
             details := some (.model model) }
  else
    .ok { model := model, messages := messages, temperature := temperature,
          max_tokens := match maxTokens with
            | some n => if n == 0 then none else some n
            | none => none,
          response_format_json_object := responseSchema.isSome }

end OpenRouterClient

namespace EigenCloudClient

/-- Embedding of `EigenCloudClient.handleHttpError` (`src/providers`, EigenCloud
variant): same classification as the OpenRouter adapter, with the
`EigenCloud HTTP` default message. -/
def handleHttpError (statusCode : Nat) (responseText : String)
    (parsed : ErrorBodyParse) : ChatCompletionError :=
  handleHttpErrorCore "EigenCloud" statusCode responseText parsed

/-- The request body `EigenCloudClient.chat` sends upstream
(`seed: DEFAULT_SEED = 42`). -/
structure RequestBody where
  model : String
  messages : List ChatMessage
  seed : Nat
  temperature : Option ℚ
  max_tokens : Option Nat
  response_format_json_object : Bool
  deriving Repr

/-- Embedding of `EigenCloudClient.chat` up to the network call: the source performs
no placeholder check on the model identifier — the body is always built
and the upstream request issued (`temperature` is a number after the
TypeScript parameter default, hence always set; `if (maxTokens)` keeps
only truthy values). -/
def chatPreflight (model : String) (messages : List ChatMessage)
    (temperature : ℚ) (maxTokens : Option Nat)
    (responseSchema : Option Json) :
    Except ChatCompletionError RequestBody :=
  .ok { model := model, messages := messages, seed := 42,
        temperature := some temperature,
        max_tokens := match maxTokens with
          | some n => if n == 0 then none else some n
          | none => none,
        response_format_json_object := responseSchema.isSome }

end EigenCloudClient

namespace OpenAIClient

/-- The parameter object `OpenAIClient.chat` passes to
`client.chat.completions.create` (`src/providers/openai-client.ts`);
`response_format` with a strict JSON schema is kept as the schema. -/
structure ChatParams where
  model : String
  messages : List ChatMessage
  max_completion_tokens : Option Nat
  temperature : Option ℚ
  response_format_schema : Option Json
  deriving Repr

/-- The reasoning-model test in `OpenAIClient.chat`:
`model.includes("gpt-5") || model.startsWith("o1") ||
model.startsWith("o3")`. -/
def isReasoningModel (model : String) : Bool :=
  JsString.includes model "gpt-5" || JsString.startsWith model "o1"
    || JsString.startsWith model "o3"

/-- TypeScript parameter default `temperature: number = 0.7`: an absent
(`undefined`) caller value becomes `0.7`. -/
def resolveTemperature (temperature : Option ℚ) : ℚ :=
  temperature.getD (7 / 10)

/-- Embedding of `OpenAIClient.chat` up to the upstream call: build the parameter
object; `temperature` is set only for non-reasoning models (the
`temperature !== undefined` conjunct always holds since the TypeScript
default makes it a number); there is no placeholder-model check. -/
def chatPreflight (model : String) (messages : List ChatMessage)
    (temperature : ℚ) (maxTokens : Option Nat)
    (responseSchema : Option Json) :
    Except ChatCompletionError ChatParams :=
  .ok { model := model, messages := messages,
        max_completion_tokens := maxTokens,
        temperature :=
          if !isReasoningModel model then some temperature else none,
        response_format_schema := responseSchema }

end OpenAIClient

/-! Concrete sample values used by witnesses and counterexamples. -/

/-- A sample successful response without parsed JSON. -/
def sampleResponse : ChatCompletionResponse :=
  { text := "hello", model := "gpt-4o-mini" }

/-- A sample response carrying a parsed JSON payload. -/
def sampleJsonResponse : ChatCompletionResponse :=
  { text := "\x7b\"x\":\"abc\"\x7d", json := some (.obj [("x", .str "abc")]),
    model := "gpt-4o-mini" }

/-- A sample retryable upstream failure. -/
def sampleRetryableError : ChatCompletionError :=
  { code := .PROVIDER_ERROR, message := "OpenRouter HTTP 500",
    retryable := true }

/-- A sample non-retryable failure. -/
def sampleNonRetryableError : ChatCompletionError :=
  { code := .PROVIDER_AUTH_FAILED, message := "OpenRouter HTTP 401",
    retryable := false }

/-- A sample catalog entry (mirrors the shape of `config/models.json`
entries). -/
def sampleModelDef : ModelDefinition :=
  { id := "openrouter-glm-free", provider := "openrouter",
    displayName := "GLM (free)", model := "z-ai/glm-4.5-air:free",
    maxTokens := 8192, supportsJsonMode := true }

/-- A sample `ajv` violation on field `/x`. -/
def sampleViolation : AjvError :=
  { instancePath := "/x", message := "must be number" }

/-- A stand-in for the compiled `ajv` validator that reports
`sampleViolation` on every payload. -/
def rejectingValidator : Json → Json → List AjvError :=
  fun _ _ => [sampleViolation]

/-- A stand-in validator that accepts every payload. -/
def acceptingValidator : Json → Json → List AjvError :=
  fun _ _ => []

/-- A stand-in MAC returning a fixed lowercase hex digest, exposing the
case-insensitivity of the hex comparison. -/
def sampleMac : String → String → String :=
  fun _ _ => "ab"

/-- A stand-in MAC distinguishing the payload
`"100:POST:/v1/chat:{}"` (digest `ab`) from every other payload
(digest `cd`), a concrete collision-free instance. -/
def sampleMac2 : String → String → String :=
  fun _ p => if p = "100:POST:/v1/chat:\x7b\x7d" then "ab" else "cd"

/-- A sample chat request whose alias resolves to no catalog entry. -/
def sampleBadRequest : ChatService.ChatCompletionRequest :=
  { provider := "openrouter", model := "missing",
    messages := [{ role := "user", content := "hi" }],
    requestId := "r2", userId := "u1" }

/-- A sample provider client that echoes the dispatched model string
back in the response. -/
def echoClient : String → Nat → Except ChatCompletionError ChatCompletionResponse :=
  fun m _ => .ok { text := "ok", model := m }

/-- A sample attempt sequence: the first attempt fails retryably, every
later attempt succeeds. -/
def sampleAttempts : Nat → Except ChatCompletionError ChatCompletionResponse :=
  fun k => if k = 1 then .error sampleRetryableError else .ok sampleResponse

/-- A sample chat request routed to the OpenRouter provider. -/
def sampleRequest : ChatService.ChatCompletionRequest :=
  { provider := "openrouter", model := "openrouter:glm",
    messages := [{ role := "user", content := "hi" }],
    requestId := "r1", userId := "u1" }

/-! Helper lemmas shared across the claim theorems. -/

namespace ConcurrencyLimiter

/-- The counter is restored by every completed `execute` call. -/
theorem execute_snd {α : Type} (m c : Nat) (fn : Except ChatCompletionError α) :
    (execute m c fn).2 = c := by
  unfold execute
  split <;> simp

/-- A sequence of completed `execute` calls leaves the counter where it
started. -/
theorem executeMany_eq {α : Type} (m : Nat)
    (ops : List (Except ChatCompletionError α)) (c : Nat) :
    executeMany m c ops = c := by
  induction ops generalizing c with
  | nil => rfl
  | cons op ops ih =>
    show executeMany m ((execute m c op).2) ops = c
    rw [execute_snd, ih]

end ConcurrencyLimiter

/-- C1: the shared in-flight counter of the concurrency gate stays in
`[0, maxConcurrency]`: at the ceiling, `execute` fails immediately with
the retryable `CONCURRENCY_LIMIT_EXCEEDED` error and does not touch the
counter; below it, the increment is paired with exactly one decrement
(the `finally` block) whether the wrapped operation succeeds or throws,
the operation's outcome propagates unchanged, the transient value
`active + 1` never exceeds the maximum, and any completed sequence of
`execute` calls returns the counter to `0`. -/
theorem concurrency_gate_bounds {α : Type} (maxConcurrency active : Nat)
    (fn : Except ChatCompletionError α)
    (ops : List (Except ChatCompletionError α)) :
    ConcurrencyLimiter.execute maxConcurrency active fn =
      (if maxConcurrency ≤ active
        then (.error (ConcurrencyLimiter.concurrencyError maxConcurrency), active)
        else (fn, active)) ∧
    (ConcurrencyLimiter.concurrencyError maxConcurrency).code
      = .CONCURRENCY_LIMIT_EXCEEDED ∧
    (ConcurrencyLimiter.concurrencyError maxConcurrency).retryable = true ∧
    (active < maxConcurrency → active + 1 ≤ maxConcurrency) ∧
    ConcurrencyLimiter.executeMany maxConcurrency 0 ops = 0 := by
  refine ⟨?_, rfl, rfl, fun h => h, ConcurrencyLimiter.executeMany_eq _ _ _⟩
  unfold ConcurrencyLimiter.execute
  split <;> simp

/-- C1 witness: the gate run at `maxConcurrency = 2` with one request
already in flight admits a second one, bounds the transient counter by
the maximum, and a completed mixed success/failure sequence returns the
counter to `0`. -/
theorem concurrency_gate_bounds_witness :
    (1 : Nat) + 1 ≤ 2 ∧
    ConcurrencyLimiter.executeMany 2 0
      [Except.ok sampleResponse, Except.error sampleRetryableError] = 0 := by
  have h := concurrency_gate_bounds (α := ChatCompletionResponse) 2 1
    (.ok sampleResponse)
    [Except.ok sampleResponse, Except.error sampleRetryableError]
  exact ⟨h.2.2.2.1 (by decide), h.2.2.2.2⟩

namespace RateLimiter

/-- Updating key `k` stores exactly the new entry at `k`. -/
theorem mapGet_mapSet_self (m : RateLimitMap) (k : String) (v : RateLimitEntry) :
    mapGet (mapSet m k v) k = some v := by
  induction m with
  | nil => simp [mapGet, mapSet, List.find?]
  | cons p rest ih =>
    obtain ⟨k₀, v₀⟩ := p
    by_cases h : k₀ = k
    · subst h
      simp [mapGet, mapSet, List.find?]
    · have hb : (k₀ == k) = false := beq_eq_false_iff_ne.mpr h
      simpa [mapGet, mapSet, List.find?, hb] using ih

/-- Updating key `k` leaves every other key's entry unchanged. -/
theorem mapGet_mapSet_ne (m : RateLimitMap) (k k' : String) (v : RateLimitEntry)
    (h : k' ≠ k) : mapGet (mapSet m k v) k' = mapGet m k' := by
  have hb : (k == k') = false := beq_eq_false_iff_ne.mpr (fun hkk => h hkk.symm)
  induction m with
  | nil => simp [mapGet, mapSet, List.find?, hb]
  | cons p rest ih =>
    obtain ⟨k₀, v₀⟩ := p
    by_cases h0 : k₀ = k
    · subst h0
      simp [mapGet, mapSet, List.find?, hb]
    · have hb0 : (k₀ == k) = false := beq_eq_false_iff_ne.mpr h0
      by_cases h1 : k₀ = k'
      · subst h1
        simp [mapGet, mapSet, List.find?, hb0]
      · have hb1 : (k₀ == k') = false := beq_eq_false_iff_ne.mpr h1
        simpa [mapGet, mapSet, List.find?, hb0, hb1] using ih

/-- Lookup in a one-entry map. -/
theorem mapGet_singleton (k₀ k : String) (v : RateLimitEntry) :
    mapGet [(k₀, v)] k = if k₀ = k then some v else none := by
  by_cases h : k₀ = k
  · subst h
    simp [mapGet, List.find?]
  · have hb : (k₀ == k) = false := beq_eq_false_iff_ne.mpr h
    simp [mapGet, List.find?, hb, h]

end RateLimiter

/-- Natural-number ceiling division by 1000, as the rational ceiling:
`(x + 999) / 1000` computes `⌈x / 1000⌉`. -/
theorem ceilDiv1000_eq (x : Nat) :
    (((x + 999) / 1000 : Nat) : ℤ) = ⌈(x : ℚ) / 1000⌉ := by
  have h1000 : (0 : ℚ) < 1000 := by norm_num
  obtain ⟨q, hq⟩ : ∃ q, (x + 999) / 1000 = q := ⟨_, rfl⟩
  have f1 : 1000 * q < x + 1000 := by omega
  have f2 : x ≤ 1000 * q := by omega
  rw [hq, eq_comm, Int.ceil_eq_iff]
  constructor
  · rw [lt_div_iff₀ h1000]
    have c1 : ((1000 * q : ℕ) : ℚ) < ((x + 1000 : ℕ) : ℚ) := by exact_mod_cast f1
    push_cast at c1 ⊢
    linarith
  · rw [div_le_iff₀ h1000]
    have c2 : ((x : ℕ) : ℚ) ≤ ((1000 * q : ℕ) : ℚ) := by exact_mod_cast f2
    push_cast at c2 ⊢
    linarith

/-- C2: `checkLimit` is the fixed-window algorithm: a missing or expired
entry is replaced by `{count := 1, resetAt := now + 60000}` and the
request is allowed; an unexpired entry below the maximum is incremented
and allowed; an entry at or above the maximum is rejected without
modification, reporting `retryAfter = ⌈(resetAt - now) / 1000⌉`; and
when the configured maximum is at least 1 (enforced by `validateConfig`)
every stored count stays at most the maximum across any call. -/
theorem rate_limiter_checkLimit_spec (maxR : Nat)
    (limits : RateLimiter.RateLimitMap) (userId : String) (now : Nat) :
    RateLimiter.checkLimit maxR limits userId now =
      (match RateLimiter.mapGet limits userId with
       | none =>
         ({ allowed := true },
           RateLimiter.mapSet limits userId ⟨1, now + 60000⟩)
       | some entry =>
         if entry.resetAt ≤ now then
           ({ allowed := true },
             RateLimiter.mapSet limits userId ⟨1, now + 60000⟩)
         else if maxR ≤ entry.count then
           ({ allowed := false,
              retryAfter := some ((entry.resetAt - now + 999) / 1000) },
             limits)
         else
           ({ allowed := true },
             RateLimiter.mapSet limits userId
               ⟨entry.count + 1, entry.resetAt⟩)) ∧
    (∀ entry : RateLimiter.RateLimitEntry,
      now < entry.resetAt →
      (((entry.resetAt - now + 999) / 1000 : Nat) : ℤ)
        = ⌈((entry.resetAt - now : Nat) : ℚ) / 1000⌉) ∧
    (1 ≤ maxR →
      (∀ k e, RateLimiter.mapGet limits k = some e → e.count ≤ maxR) →
      ∀ k e,
        RateLimiter.mapGet (RateLimiter.checkLimit maxR limits userId now).2 k
          = some e → e.count ≤ maxR) := by
  refine ⟨rfl, fun entry _ => ceilDiv1000_eq _, fun hmax hinv k e hget => ?_⟩
  unfold RateLimiter.checkLimit at hget
  cases hgu : RateLimiter.mapGet limits userId with
  | none =>
    rw [hgu] at hget
    by_cases hk : k = userId
    · subst hk
      rw [RateLimiter.mapGet_mapSet_self] at hget
      cases hget
      exact hmax
    · rw [RateLimiter.mapGet_mapSet_ne _ _ _ _ hk] at hget
      exact hinv k e hget
  | some entry =>
    rw [hgu] at hget
    by_cases hexp : entry.resetAt ≤ now
    · simp only [if_pos hexp] at hget
      by_cases hk : k = userId
      · subst hk
        rw [RateLimiter.mapGet_mapSet_self] at hget
        cases hget
        exact hmax
      · rw [RateLimiter.mapGet_mapSet_ne _ _ _ _ hk] at hget
        exact hinv k e hget
    · simp only [if_neg hexp] at hget
      by_cases hcount : maxR ≤ entry.count
      · simp only [if_pos hcount] at hget
        exact hinv k e hget
      · simp only [if_neg hcount] at hget
        by_cases hk : k = userId
        · subst hk
          rw [RateLimiter.mapGet_mapSet_self] at hget
          cases hget
          show entry.count + 1 ≤ maxR
          omega
        · rw [RateLimiter.mapGet_mapSet_ne _ _ _ _ hk] at hget
          exact hinv k e hget

/-- C2 witness: with a 2-per-minute limit and an unexpired entry at
count 2, the third request at `now = 0` is rejected with
`retryAfter = 60` (the ceiling of `60000 / 1000`), the map is left
unchanged, and every stored count stays at most 2. -/
theorem rate_limiter_checkLimit_spec_witness :
    (RateLimiter.checkLimit 2 [("u1", ⟨2, 60000⟩)] "u1" 0).1
      = { allowed := false, retryAfter := some 60 } ∧
    ((60 : ℤ) = ⌈((60000 : Nat) : ℚ) / 1000⌉) ∧
    (∀ k e,
      RateLimiter.mapGet (RateLimiter.checkLimit 2 [("u1", ⟨2, 60000⟩)] "u1" 0).2 k
        = some e → e.count ≤ 2) := by
  have h := rate_limiter_checkLimit_spec 2 [("u1", ⟨2, 60000⟩)] "u1" 0
  have hinv : ∀ k e,
      RateLimiter.mapGet [("u1", (⟨2, 60000⟩ : RateLimiter.RateLimitEntry))] k
        = some e → e.count ≤ 2 := by
    intro k e hk
    rw [RateLimiter.mapGet_singleton] at hk
    by_cases hu : ("u1" : String) = k
    · rw [if_pos hu] at hk
      cases hk
      decide
    · rw [if_neg hu] at hk
      cases hk
  refine ⟨?_, ?_, h.2.2 (by decide) hinv⟩
  · decide
  · have := h.2.1 ⟨2, 60000⟩ (by decide)
    simpa using this

namespace ChatService

/-- A caught error that is non-retryable, or caught when the attempt
number has reached `maxRetries`, is rethrown unchanged with no further
attempt and no backoff. -/
theorem executeWithRetry_stop (cfg : RetryConfig)
    (av : Json → Json → List AjvError) (s : Option Json)
    (att : Nat → Except ChatCompletionError ChatCompletionResponse)
    (k : Nat) (e : ChatCompletionError)
    (he : attemptOnce av s att k = .error e)
    (hstop : e.retryable = false ∨ cfg.maxRetries ≤ k) :
    executeWithRetry cfg av s att k = (.error e, []) := by
  rcases hstop with h | h
  · rw [executeWithRetry, he]
    simp [h]
  · by_cases hr : e.retryable = false
    · rw [executeWithRetry, he]
      simp [hr]
    · rw [executeWithRetry, he]
      simp [hr, h]

/-- A caught retryable error below the attempt ceiling triggers one
backoff of `retryBackoffMs * 2 ^ (attempt - 1)` and a recursive call at
the next attempt number. -/
theorem executeWithRetry_retryStep (cfg : RetryConfig)
    (av : Json → Json → List AjvError) (s : Option Json)
    (att : Nat → Except ChatCompletionError ChatCompletionResponse)
    (k : Nat) (e : ChatCompletionError)
    (he : attemptOnce av s att k = .error e)
    (hr : e.retryable = true) (hk : k < cfg.maxRetries) :
    executeWithRetry cfg av s att k =
      ((executeWithRetry cfg av s att (k + 1)).1,
        cfg.retryBackoffMs * 2 ^ (k - 1)
          :: (executeWithRetry cfg av s att (k + 1)).2) := by
  have hr' : ¬ e.retryable = false := by simp [hr]
  have hk' : ¬ cfg.maxRetries ≤ k := Nat.not_le.mpr hk
  conv_lhs => rw [executeWithRetry]
  rw [he]
  simp [hr', hk']

/-- The backoff delays recorded from attempt `k ≥ 1` on are the
consecutive powers `retryBackoffMs * 2 ^ (k - 1 + i)`. -/
theorem executeWithRetry_delays (cfg : RetryConfig)
    (av : Json → Json → List AjvError) (s : Option Json)
    (att : Nat → Except ChatCompletionError ChatCompletionResponse) :
    ∀ n k, cfg.maxRetries - k = n → 1 ≤ k →
      (executeWithRetry cfg av s att k).2 =
        (List.range (executeWithRetry cfg av s att k).2.length).map
          (fun i => cfg.retryBackoffMs * 2 ^ (k - 1 + i)) := by
  intro n
  induction n with
  | zero =>
    intro k hnk _
    cases hres : attemptOnce av s att k with
    | ok r => rw [executeWithRetry, hres] ; simp
    | error e =>
      rw [executeWithRetry_stop cfg av s att k e hres
        (Or.inr (by omega))]
      simp
  | succ n ih =>
    intro k hnk hk1
    cases hres : attemptOnce av s att k with
    | ok r => rw [executeWithRetry, hres] ; simp
    | error e =>
      by_cases hr : e.retryable = false
      · rw [executeWithRetry_stop cfg av s att k e hres (Or.inl hr)]
        simp
      · have hrt : e.retryable = true := by
          revert hr ; cases e.retryable <;> simp
        have hklt : k < cfg.maxRetries := by omega
        rw [executeWithRetry_retryStep cfg av s att k e hres hrt hklt]
        have ihk := ih (k + 1) (by omega) (by omega)
        simp only [List.length_cons, List.range_succ_eq_map, List.map_cons,
          List.map_map, List.cons.injEq]
        refine ⟨by simp, ?_⟩
        rw [ihk]
        simp only [List.length_map, List.length_range]
        apply List.map_congr_left
        intro i _
        simp only [Function.comp_apply]
        congr 2
        omega

/-- The number of backoff delays from attempt `k ≥ 1` keeps the total
attempt count within `max k maxRetries`. -/
theorem executeWithRetry_length (cfg : RetryConfig)
    (av : Json → Json → List AjvError) (s : Option Json)
    (att : Nat → Except ChatCompletionError ChatCompletionResponse) :
    ∀ n k, cfg.maxRetries - k = n → 1 ≤ k →
      (executeWithRetry cfg av s att k).2.length + k ≤ max k cfg.maxRetries := by
  intro n
  induction n with
  | zero =>
    intro k hnk _
    cases hres : attemptOnce av s att k with
    | ok r => rw [executeWithRetry, hres] ; simp
    | error e =>
      rw [executeWithRetry_stop cfg av s att k e hres (Or.inr (by omega))]
      simp
  | succ n ih =>
    intro k hnk hk1
    cases hres : attemptOnce av s att k with
    | ok r => rw [executeWithRetry, hres] ; simp
    | error e =>
      by_cases hr : e.retryable = false
      · rw [executeWithRetry_stop cfg av s att k e hres (Or.inl hr)]
        simp
      · have hrt : e.retryable = true := by
          revert hr ; cases e.retryable <;> simp
        have hklt : k < cfg.maxRetries := by omega
        rw [executeWithRetry_retryStep cfg av s att k e hres hrt hklt]
        have ihk := ih (k + 1) (by omega) (by omega)
        simp only [List.length_cons]
        omega

end ChatService

/-- C3 (amended): the retry orchestrator invokes the attempt; a failure
is retried exactly when the error's retryable flag is true and the
1-indexed attempt number is below `maxRetries`, otherwise the error
propagates unchanged; the backoff before the retry following failed
attempt `i` is `retryBackoffMs * 2 ^ (i - 1)`, so the delays form the
sequence `base, 2·base, 4·base, …`; and the total number of attempts
never exceeds `max 1 maxRetries` (with `maxRetries = 0`, a configuration
`validateConfig` accepts, a single attempt is still made). -/
theorem retry_orchestrator_spec (cfg : ChatService.RetryConfig)
    (av : Json → Json → List AjvError) (s : Option Json)
    (att : Nat → Except ChatCompletionError ChatCompletionResponse) :
    (∀ k e, ChatService.attemptOnce av s att k = .error e →
      (e.retryable = false ∨ cfg.maxRetries ≤ k) →
      ChatService.executeWithRetry cfg av s att k = (.error e, [])) ∧
    (∀ k e, ChatService.attemptOnce av s att k = .error e →
      e.retryable = true → k < cfg.maxRetries →
      ChatService.executeWithRetry cfg av s att k =
        ((ChatService.executeWithRetry cfg av s att (k + 1)).1,
          cfg.retryBackoffMs * 2 ^ (k - 1)
            :: (ChatService.executeWithRetry cfg av s att (k + 1)).2)) ∧
    ((ChatService.executeWithRetry cfg av s att 1).2 =
      (List.range (ChatService.executeWithRetry cfg av s att 1).2.length).map
        (fun i => cfg.retryBackoffMs * 2 ^ i)) ∧
    (ChatService.executeWithRetry cfg av s att 1).2.length + 1
      ≤ max 1 cfg.maxRetries := by
  refine ⟨fun k e he hstop => ChatService.executeWithRetry_stop cfg av s att k e he hstop,
    fun k e he hr hk => ChatService.executeWithRetry_retryStep cfg av s att k e he hr hk,
    ?_, ChatService.executeWithRetry_length cfg av s att _ 1 rfl (by omega)⟩
  have h := ChatService.executeWithRetry_delays cfg av s att _ 1 rfl (by omega)
  simpa using h

/-- C3 witness: with `maxRetries = 2` and base backoff 100 ms, an
attempt sequence failing retryably once then succeeding yields the
success after exactly one backoff of `100 = 100 * 2 ^ 0` ms, within the
attempt bound; a non-retryable failure under `maxRetries = 0` propagates
unchanged with no attempt repeated. -/
theorem retry_orchestrator_spec_witness :
    ChatService.executeWithRetry ⟨2, 100⟩ acceptingValidator none
        sampleAttempts 1 = (.ok sampleResponse, [100]) ∧
    (ChatService.executeWithRetry ⟨2, 100⟩ acceptingValidator none
        sampleAttempts 1).2.length + 1 ≤ max 1 2 ∧
    ChatService.executeWithRetry ⟨0, 100⟩ acceptingValidator none
        (fun _ => .error sampleNonRetryableError) 1
      = (.error sampleNonRetryableError, []) := by
  have h := retry_orchestrator_spec ⟨2, 100⟩ acceptingValidator none sampleAttempts
  have g := retry_orchestrator_spec ⟨0, 100⟩ acceptingValidator none
    (fun _ => .error sampleNonRetryableError)
  have h2 := h.2.1 1 sampleRetryableError rfl rfl (by decide)
  have h3 : ChatService.executeWithRetry ⟨2, 100⟩ acceptingValidator none
      sampleAttempts 2 = (.ok sampleResponse, []) := by
    rw [ChatService.executeWithRetry]
    rfl
  rw [h3] at h2
  simp only [h2]
  refine ⟨by norm_num, by norm_num, ?_⟩
  exact g.1 1 sampleNonRetryableError rfl (Or.inl rfl)

/-- C3 counterexample: `validateConfig` accepts `maxRetries = 0`, yet a
retryably failing attempt sequence still performs one attempt, so the
total number of attempts (1) exceeds the configured maximum (0) — the
claim's attempt bound fails as stated. -/
theorem retry_attempts_exceed_zero_max :
    (ChatService.executeWithRetry ⟨0, 100⟩ acceptingValidator none
        (fun _ => .error sampleRetryableError) 1).2.length + 1 = 1 ∧
    ¬ ((1 : Nat) ≤ 0) ∧
    validateConfig
      { rateLimitPerUser := 30, globalConcurrency := 10,
        connectTimeout := 10000, requestTimeout := 1000000,
        maxRetries := 0, retryBackoffMs := 1000, port := 3002 } = true := by
  refine ⟨?_, by decide, by decide⟩
  have hstop := ChatService.executeWithRetry_stop ⟨0, 100⟩ acceptingValidator none
    (fun _ => .error sampleRetryableError) 1 sampleRetryableError rfl
    (Or.inr (by decide))
  rw [hstop]
  rfl

/-- A string with a non-empty left part stays non-empty under append. -/
theorem str_ne_empty_append (s t : String) (hs : s ≠ "") : s ++ t ≠ "" := by
  intro h
  apply hs
  have hd : (s ++ t).data = [] := by rw [h]
  rw [String.data_append] at hd
  have hsd : s.data = [] := (List.append_eq_nil.mp hd).1
  cases s with
  | mk data =>
    cases hsd
    rfl

/-- Helper: `String.intercalate.go` factors its accumulator to the front. -/
theorem intercalate_go_append (sep : String) (l : List String) :
    ∀ acc, String.intercalate.go acc sep l
      = acc ++ String.intercalate.go "" sep l := by
  induction l with
  | nil =>
    intro acc
    simp [String.intercalate.go]
  | cons a as ih =>
    intro acc
    show String.intercalate.go (acc ++ sep ++ a) sep as
      = acc ++ String.intercalate.go ("" ++ sep ++ a) sep as
    rw [ih (acc ++ sep ++ a), ih ("" ++ sep ++ a)]
    simp [String.append_assoc]

/-- Every member of the joined list occurs verbatim inside
`String.intercalate.go`'s result. -/
theorem intercalate_go_decomp (sep : String) :
    ∀ (l : List String) (acc x : String), x ∈ l →
      ∃ pre post, String.intercalate.go acc sep l = pre ++ x ++ post := by
  intro l
  induction l with
  | nil =>
    intro acc x hx
    cases hx
  | cons a as ih =>
    intro acc x hx
    rcases List.mem_cons.mp hx with rfl | hmem
    · refine ⟨acc ++ sep, String.intercalate.go "" sep as, ?_⟩
      show String.intercalate.go (acc ++ sep ++ x) sep as = _
      rw [intercalate_go_append sep as (acc ++ sep ++ x)]
    · exact ih (acc ++ sep ++ a) x hmem

/-- Every member of the joined list occurs verbatim inside
`String.intercalate`'s result. -/
theorem intercalate_mem_decomp (sep x : String) (l : List String)
    (hx : x ∈ l) :
    ∃ pre post, String.intercalate sep l = pre ++ x ++ post := by
  cases l with
  | nil => cases hx
  | cons a as =>
    rcases List.mem_cons.mp hx with rfl | hmem
    · refine ⟨"", String.intercalate.go "" sep as, ?_⟩
      show String.intercalate.go x sep as = _
      rw [intercalate_go_append sep as x]
      simp
    · obtain ⟨pre, post, h⟩ := intercalate_go_decomp sep as a x hmem
      exact ⟨pre, post, h⟩

/-- A formatted `ajv` violation is never the empty string (it always
contains the separating space and a non-empty path or `root`). -/
theorem formatError_ne_empty (v : AjvError) :
    JsonValidator.formatError v ≠ "" := by
  unfold JsonValidator.formatError
  by_cases hb : v.instancePath == ""
  · rw [if_pos hb]
    exact str_ne_empty_append _ _ (str_ne_empty_append _ _ (by decide))
  · rw [if_neg hb]
    have hne : v.instancePath ≠ "" := by
      intro h
      rw [h] at hb
      exact hb rfl
    exact str_ne_empty_append _ _ (str_ne_empty_append _ _ hne)

/-- Joining a non-empty list of formatted violations is non-empty. -/
theorem intercalate_formatErrors_ne_empty (v : AjvError) (rest : List AjvError) :
    String.intercalate "; " ((v :: rest).map JsonValidator.formatError) ≠ "" := by
  show String.intercalate.go (JsonValidator.formatError v) "; " _ ≠ ""
  rw [intercalate_go_append]
  exact str_ne_empty_append _ _ (formatError_ne_empty v)

/-- C8: a payload rejected by the schema validator produces a single
non-retryable `SCHEMA_VALIDATION_FAILED` error whose message aggregates
every violation — each formatted `path reason` item occurs verbatim in
the joined message — whose structured detail carries the raw violation
list together with the offending payload, and which the retry loop
treats as final: the dispatch is not re-attempted and no backoff is
slept. -/
theorem schema_validation_failure_spec
    (av : Json → Json → List AjvError) (json schema : Json)
    (cfg : ChatService.RetryConfig)
    (att : Nat → Except ChatCompletionError ChatCompletionResponse)
    (k : Nat) (r : ChatCompletionResponse)
    (hatt : att k = .ok r) (hjson : r.json = some json)
    (hne : av json schema ≠ []) :
    ∃ e : ChatCompletionError,
      (JsonValidator.validateResponse av json schema).valid = false ∧
      (JsonValidator.validateResponse av json schema).error = some e ∧
      e.code = .SCHEMA_VALIDATION_FAILED ∧
      e.retryable = false ∧
      e.message = "JSON response does not match schema: "
        ++ String.intercalate "; "
          ((av json schema).map JsonValidator.formatError) ∧
      (∀ v ∈ av json schema, ∃ pre post,
        e.message = pre ++ JsonValidator.formatError v ++ post) ∧
      e.details = some (.schemaErrors (av json schema) json) ∧
      ChatService.executeWithRetry cfg av (some schema) att k
        = (.error e, []) := by
  obtain ⟨v0, rest, hcons⟩ : ∃ v0 rest, av json schema = v0 :: rest := by
    cases hc : av json schema with
    | nil => exact absurd hc hne
    | cons a as => exact ⟨a, as, rfl⟩
  have hypempty : (av json schema).isEmpty = false := by rw [hcons] ; rfl
  have hjoin : (String.intercalate "; "
      ((av json schema).map JsonValidator.formatError) == "") = false := by
    rw [hcons]
    exact beq_eq_false_iff_ne.mpr (intercalate_formatErrors_ne_empty v0 rest)
  have hval : JsonValidator.validateResponse av json schema =
      { valid := false,
        error := some
          { code := .SCHEMA_VALIDATION_FAILED,
            message := "JSON response does not match schema: "
              ++ String.intercalate "; "
                ((av json schema).map JsonValidator.formatError),
            retryable := false,
            details := some (.schemaErrors (av json schema) json) } } := by
    simp only [JsonValidator.validateResponse, hypempty, hjoin,
      Bool.false_eq_true, if_false]
  refine ⟨_, by rw [hval], by rw [hval], rfl, rfl, rfl, ?_, rfl, ?_⟩
  · intro v hv
    obtain ⟨pre, post, hdecomp⟩ := intercalate_mem_decomp "; "
      (JsonValidator.formatError v)
      ((av json schema).map JsonValidator.formatError)
      (List.mem_map_of_mem _ hv)
    refine ⟨"JSON response does not match schema: " ++ pre, post, ?_⟩
    show "JSON response does not match schema: " ++ _ = _
    rw [hdecomp, ← String.append_assoc, ← String.append_assoc]
  · have hattempt : ChatService.attemptOnce av (some schema) att k
        = .error
          { code := .SCHEMA_VALIDATION_FAILED,
            message := "JSON response does not match schema: "
              ++ String.intercalate "; "
                ((av json schema).map JsonValidator.formatError),
            retryable := false,
            details := some (.schemaErrors (av json schema) json) } := by
      unfold ChatService.attemptOnce
      rw [hatt]
      simp only [hjson]
      rw [hval]
    exact ChatService.executeWithRetry_stop cfg av (some schema) att k _
      hattempt (Or.inl rfl)

/-- C8 witness: the rejecting validator on payload `{"x":"abc"}` yields
the non-retryable schema error with message `/x must be number`, and the
retry loop returns it immediately with no backoff. -/
theorem schema_validation_failure_spec_witness :
    ∃ e : ChatCompletionError,
      (JsonValidator.validateResponse rejectingValidator
        (Json.obj [("x", Json.str "abc")]) (Json.obj [])).error = some e ∧
      e.retryable = false ∧
      e.message = "JSON response does not match schema: /x must be number" ∧
      ChatService.executeWithRetry ⟨2, 100⟩ rejectingValidator
        (some (Json.obj [])) (fun _ => .ok sampleJsonResponse) 1
        = (.error e, []) := by
  obtain ⟨e, _, h2, _, h4, h5, _, _, h8⟩ :=
    schema_validation_failure_spec rejectingValidator
      (Json.obj [("x", Json.str "abc")]) (Json.obj []) ⟨2, 100⟩
      (fun _ => .ok sampleJsonResponse) 1 sampleJsonResponse rfl rfl
      (by decide)
  refine ⟨e, h2, h4, ?_, h8⟩
  rw [h5]
  rfl

namespace JsString

/-- A single character occurring in a list is an infix of it. -/
theorem listIsInfixOf_singleton (c : Char) (l : List Char) (h : c ∈ l) :
    listIsInfixOf [c] l = true := by
  induction l with
  | nil => cases h
  | cons a as ih =>
    simp only [listIsInfixOf]
    rcases List.mem_cons.mp h with rfl | hmem
    · have hpre : List.isPrefixOf [c] (c :: as) = true := by
        simp [List.isPrefixOf]
      rw [hpre]
      simp
    · rw [ih hmem]
      simp

/-- A string starts with any of its literal prefixes. -/
theorem startsWith_append (pre rest : String) :
    startsWith (pre ++ rest) pre = true := by
  unfold startsWith
  rw [String.data_append]
  exact List.isPrefixOf_iff_prefix.mpr (List.prefix_append _ _)

/-- Replacing a non-empty leading pattern by the empty string strips
exactly that prefix. -/
theorem replace_dropLeading (pre rest : String) (h : pre.data ≠ []) :
    replace (pre ++ rest) pre = rest := by
  unfold replace
  rw [String.data_append]
  cases hp : pre.data with
  | nil => exact absurd hp h
  | cons c cs =>
    have hpref : List.isPrefixOf (c :: cs) ((c :: cs) ++ rest.data) = true :=
      List.isPrefixOf_iff_prefix.mpr (List.prefix_append _ _)
    show String.mk (replaceFirstList (c :: cs) (c :: (cs ++ rest.data))) = rest
    rw [replaceFirstList]
    rw [show c :: (cs ++ rest.data) = (c :: cs) ++ rest.data from rfl, hpref]
    simp only [if_true, List.drop_left]

end JsString

namespace ChatService

/-- When both catalog lookups miss, `chat` fails with the non-retryable
`MODEL_NOT_FOUND` error, leaving the rate map and the concurrency
counter untouched and never invoking the provider client. -/
theorem chat_modelNotFound (catalog : List ModelDefinition)
    (cfg : RetryConfig) (rateLimitPerUser globalConcurrency : Nat)
    (av : Json → Json → List AjvError)
    (clientChat : String → Nat → Except ChatCompletionError ChatCompletionResponse)
    (limits : RateLimiter.RateLimitMap) (activeRequests : Nat)
    (req : ChatCompletionRequest) (now : Nat)
    (h : modelResolution catalog req.provider req.model = none) :
    chat catalog cfg rateLimitPerUser globalConcurrency av clientChat limits
        activeRequests req now =
      (.error { code := .MODEL_NOT_FOUND,
                message := "Model not found: " ++ req.provider ++ "/" ++ req.model,
                retryable := false },
        limits, activeRequests) := by
  unfold chat
  rw [h]

/-- When the model resolves but the caller's window is exhausted, `chat`
fails with the retryable `RATE_LIMIT_EXCEEDED` error after the rate
check and never invokes the provider client or the gate. -/
theorem chat_rateLimited (catalog : List ModelDefinition)
    (cfg : RetryConfig) (rateLimitPerUser globalConcurrency : Nat)
    (av : Json → Json → List AjvError)
    (clientChat : String → Nat → Except ChatCompletionError ChatCompletionResponse)
    (limits : RateLimiter.RateLimitMap) (activeRequests : Nat)
    (req : ChatCompletionRequest) (now : Nat) (d : ModelDefinition)
    (hd : modelResolution catalog req.provider req.model = some d)
    (hrl : (RateLimiter.checkLimit rateLimitPerUser limits req.userId now).1.allowed
      = false) :
    chat catalog cfg rateLimitPerUser globalConcurrency av clientChat limits
        activeRequests req now =
      (.error { code := .RATE_LIMIT_EXCEEDED,
                message := "Rate limit exceeded for user. Try again in "
                  ++ toString ((RateLimiter.checkLimit rateLimitPerUser limits
                      req.userId now).1.retryAfter.getD 0) ++ " seconds",
                retryable := true,
                details := ((RateLimiter.checkLimit rateLimitPerUser limits
                  req.userId now).1.retryAfter).map ErrorDetails.retryAfter },
        (RateLimiter.checkLimit rateLimitPerUser limits req.userId now).2,
        activeRequests) := by
  unfold chat
  rw [hd]
  simp only [hrl, if_true]

/-- When the model resolves and the caller is within its window, `chat`
runs the retrying dispatch of the catalog entry's upstream model string
under the concurrency gate. -/
theorem chat_dispatch (catalog : List ModelDefinition)
    (cfg : RetryConfig) (rateLimitPerUser globalConcurrency : Nat)
    (av : Json → Json → List AjvError)
    (clientChat : String → Nat → Except ChatCompletionError ChatCompletionResponse)
    (limits : RateLimiter.RateLimitMap) (activeRequests : Nat)
    (req : ChatCompletionRequest) (now : Nat) (d : ModelDefinition)
    (hd : modelResolution catalog req.provider req.model = some d)
    (hrl : (RateLimiter.checkLimit rateLimitPerUser limits req.userId now).1.allowed
      = true) :
    chat catalog cfg rateLimitPerUser globalConcurrency av clientChat limits
        activeRequests req now =
      ((ConcurrencyLimiter.execute globalConcurrency activeRequests
          (executeWithRetry cfg av req.responseSchema (clientChat d.model) 1).1).1,
        (RateLimiter.checkLimit rateLimitPerUser limits req.userId now).2,
        (ConcurrencyLimiter.execute globalConcurrency activeRequests
          (executeWithRetry cfg av req.responseSchema (clientChat d.model) 1).1).2) := by
  unfold chat
  rw [hd]
  simp only [hrl]
  simp

end ChatService

/-- C5 (amended): the source pipeline order is Authenticator (transport
`preHandler`), then ModelResolver, then RateLimiter, then
ConcurrencyGate, then the retrying provider dispatch, then response
validation — model resolution precedes the rate-limit check, so a
request whose alias is unresolvable is rejected with `MODEL_NOT_FOUND`
even when the caller's window is exhausted, while a resolvable request
is rate-checked and only then gated and dispatched. -/
theorem pipeline_order_spec (catalog : List ModelDefinition)
    (cfg : ChatService.RetryConfig) (rateL gc : Nat)
    (av : Json → Json → List AjvError) :
    (∀ clientChat limits active req now,
      ChatService.modelResolution catalog req.provider req.model = none →
      ChatService.chat catalog cfg rateL gc av clientChat limits active req now =
        (.error { code := .MODEL_NOT_FOUND,
                  message := "Model not found: " ++ req.provider ++ "/" ++ req.model,
                  retryable := false },
          limits, active)) ∧
    (∀ clientChat limits active req now d,
      ChatService.modelResolution catalog req.provider req.model = some d →
      (RateLimiter.checkLimit rateL limits req.userId now).1.allowed = false →
      ∃ e, ChatService.chat catalog cfg rateL gc av clientChat limits active req now =
          (.error e, (RateLimiter.checkLimit rateL limits req.userId now).2, active) ∧
        e.code = .RATE_LIMIT_EXCEEDED ∧ e.retryable = true) ∧
    (∀ clientChat limits active req now d,
      ChatService.modelResolution catalog req.provider req.model = some d →
      (RateLimiter.checkLimit rateL limits req.userId now).1.allowed = true →
      ChatService.chat catalog cfg rateL gc av clientChat limits active req now =
        ((ConcurrencyLimiter.execute gc active
            (ChatService.executeWithRetry cfg av req.responseSchema
              (clientChat d.model) 1).1).1,
          (RateLimiter.checkLimit rateL limits req.userId now).2,
          (ConcurrencyLimiter.execute gc active
            (ChatService.executeWithRetry cfg av req.responseSchema
              (clientChat d.model) 1).1).2)) := by
  refine ⟨?_, ?_, ?_⟩
  · intro clientChat limits active req now h
    exact ChatService.chat_modelNotFound catalog cfg rateL gc av clientChat
      limits active req now h
  · intro clientChat limits active req now d hd hrl
    exact ⟨_, ChatService.chat_rateLimited catalog cfg rateL gc av clientChat
      limits active req now d hd hrl, rfl, rfl⟩
  · intro clientChat limits active req now d hd hrl
    exact ChatService.chat_dispatch catalog cfg rateL gc av clientChat
      limits active req now d hd hrl

/-- C5 counterexample: a caller whose rate window is exhausted
(`checkLimit` would reject) sending an unresolvable alias receives
`MODEL_NOT_FOUND`, not `RATE_LIMIT_EXCEEDED` — model resolution runs
before the rate-limit check, contrary to the claimed order. -/
theorem pipeline_order_counterexample :
    (RateLimiter.checkLimit 1 [("u1", ⟨1, 60000⟩)] "u1" 0).1.allowed = false ∧
    (ChatService.chat [] ⟨2, 100⟩ 1 10 acceptingValidator
        (fun _ _ => .ok sampleResponse) [("u1", ⟨1, 60000⟩)] 0
        sampleRequest 0).1
      = .error { code := .MODEL_NOT_FOUND,
                 message := "Model not found: openrouter/openrouter:glm",
                 retryable := false } ∧
    LLMErrorCode.MODEL_NOT_FOUND ≠ LLMErrorCode.RATE_LIMIT_EXCEEDED := by
  refine ⟨by decide, ?_, by decide⟩
  rw [ChatService.chat_modelNotFound [] ⟨2, 100⟩ 1 10 acceptingValidator
    (fun _ _ => .ok sampleResponse) [("u1", ⟨1, 60000⟩)] 0 sampleRequest 0
    (by decide)]
  rfl

/-- C5 witness: with the one-entry catalog, an unresolvable request
fails with `MODEL_NOT_FOUND`; a resolvable request from an exhausted
caller fails with the retryable `RATE_LIMIT_EXCEEDED`; and a resolvable
admitted request is dispatched and succeeds. -/
theorem pipeline_order_spec_witness :
    (ChatService.chat [sampleModelDef] ⟨2, 100⟩ 30 10 acceptingValidator
        echoClient [] 0 sampleBadRequest 0).1
      = .error { code := .MODEL_NOT_FOUND,
                 message := "Model not found: openrouter/missing",
                 retryable := false } ∧
    (∃ e, (ChatService.chat [sampleModelDef] ⟨2, 100⟩ 30 10 acceptingValidator
        echoClient [("u1", ⟨30, 60000⟩)] 0 sampleRequest 0).1 = .error e ∧
      e.code = .RATE_LIMIT_EXCEEDED ∧ e.retryable = true) ∧
    (ChatService.chat [sampleModelDef] ⟨2, 100⟩ 30 10 acceptingValidator
        echoClient [] 0 sampleRequest 0).1
      = .ok { text := "ok", model := "z-ai/glm-4.5-air:free" } := by
  have h := pipeline_order_spec [sampleModelDef] ⟨2, 100⟩ 30 10 acceptingValidator
  refine ⟨?_, ?_, ?_⟩
  · rw [h.1 echoClient [] 0 sampleBadRequest 0 (by decide)]
    rfl
  · obtain ⟨e, he, hc, hr⟩ := h.2.1 echoClient [("u1", ⟨30, 60000⟩)] 0
      sampleRequest 0 sampleModelDef (by decide) (by decide)
    exact ⟨e, by rw [he], hc, hr⟩
  · rw [h.2.2 echoClient [] 0 sampleRequest 0 sampleModelDef (by decide) (by decide)]
    have hretry : ChatService.executeWithRetry ⟨2, 100⟩ acceptingValidator
        sampleRequest.responseSchema (echoClient sampleModelDef.model) 1
        = (.ok { text := "ok", model := "z-ai/glm-4.5-air:free" }, []) := by
      rw [ChatService.executeWithRetry]
      rfl
    rw [hretry]
    rfl

/-- C9: alias normalization rewrites `openrouter:<name>` (under provider
`openrouter`) to catalog id `openrouter-<name>-free`; the normalized
alias is first looked up directly as a catalog id; on a miss the catalog
is scanned for an entry whose `(provider, model)` pair literally equals
the caller's `(provider, alias)`; when both fail the request is rejected
with the non-retryable `MODEL_NOT_FOUND`; and on success the catalog
entry's upstream model string — not the caller's alias — is what is
dispatched. -/
theorem model_resolution_spec (catalog : List ModelDefinition) :
    (∀ name, ChatService.mapModelIdToCatalogId ("openrouter:" ++ name) "openrouter"
      = "openrouter-" ++ name ++ "-free") ∧
    (∀ provider model d,
      ModelCatalog.getModel catalog
        (ChatService.mapModelIdToCatalogId model provider) = some d →
      ChatService.modelResolution catalog provider model = some d) ∧
    (∀ provider model d,
      ModelCatalog.getModel catalog
        (ChatService.mapModelIdToCatalogId model provider) = none →
      ModelCatalog.getModelByProviderAndModel catalog provider model = some d →
      ChatService.modelResolution catalog provider model = some d ∧
        d.provider = provider ∧ d.model = model) ∧
    (∀ cfg rateL gc av clientChat limits active
        (req : ChatService.ChatCompletionRequest) now,
      ChatService.modelResolution catalog req.provider req.model = none →
      (ChatService.chat catalog cfg rateL gc av clientChat limits active req now).1
        = .error { code := .MODEL_NOT_FOUND,
                   message := "Model not found: " ++ req.provider ++ "/" ++ req.model,
                   retryable := false }) ∧
    (∀ cfg rateL gc av clientChat limits active
        (req : ChatService.ChatCompletionRequest) now d,
      ChatService.modelResolution catalog req.provider req.model = some d →
      (RateLimiter.checkLimit rateL limits req.userId now).1.allowed = true →
      (ChatService.chat catalog cfg rateL gc av clientChat limits active req now).1
        = (ConcurrencyLimiter.execute gc active
            (ChatService.executeWithRetry cfg av req.responseSchema
              (clientChat d.model) 1).1).1) := by
  refine ⟨?_, ?_, ?_, ?_, ?_⟩
  · intro name
    have h1 : JsString.includes ("openrouter:" ++ name) ":" = true := by
      unfold JsString.includes
      rw [String.data_append]
      exact JsString.listIsInfixOf_singleton ':' _
        (List.mem_append_left _ (by decide))
    have h2 : JsString.startsWith ("openrouter:" ++ name) "openrouter:" = true :=
      JsString.startsWith_append _ _
    have h3 : JsString.replace ("openrouter:" ++ name) "openrouter:" = name :=
      JsString.replace_dropLeading _ _ (by decide)
    unfold ChatService.mapModelIdToCatalogId
    rw [h1, h2, h3]
    simp
  · intro provider model d h
    unfold ChatService.modelResolution
    rw [h]
  · intro provider model d hnone hfind
    have hp := List.find?_some hfind
    rw [Bool.and_eq_true, beq_iff_eq, beq_iff_eq] at hp
    refine ⟨?_, hp.1, hp.2⟩
    unfold ChatService.modelResolution
    rw [hnone, hfind]
  · intro cfg rateL gc av clientChat limits active req now h
    rw [ChatService.chat_modelNotFound catalog cfg rateL gc av clientChat
      limits active req now h]
  · intro cfg rateL gc av clientChat limits active req now d hd hrl
    rw [ChatService.chat_dispatch catalog cfg rateL gc av clientChat
      limits active req now d hd hrl]

/-- C9 witness: `openrouter:foo` normalizes to `openrouter-foo-free`;
`openrouter:glm` resolves through the direct catalog-id lookup; the raw
upstream string `z-ai/glm-4.5-air:free` resolves through the literal
`(provider, model)` scan; an unresolvable alias yields `MODEL_NOT_FOUND`;
and the dispatched model string is the catalog entry's upstream one. -/
theorem model_resolution_spec_witness :
    ChatService.mapModelIdToCatalogId "openrouter:foo" "openrouter"
      = "openrouter-foo-free" ∧
    ChatService.modelResolution [sampleModelDef] "openrouter" "openrouter:glm"
      = some sampleModelDef ∧
    ChatService.modelResolution [sampleModelDef] "openrouter"
      "z-ai/glm-4.5-air:free" = some sampleModelDef ∧
    (ChatService.chat [sampleModelDef] ⟨2, 100⟩ 30 10 acceptingValidator
        echoClient [] 0 sampleBadRequest 0).1
      = .error { code := .MODEL_NOT_FOUND,
                 message := "Model not found: openrouter/missing",
                 retryable := false } ∧
    (ChatService.chat [sampleModelDef] ⟨2, 100⟩ 30 10 acceptingValidator
        echoClient [] 0 sampleRequest 0).1
      = .ok { text := "ok", model := "z-ai/glm-4.5-air:free" } := by
  have h := model_resolution_spec [sampleModelDef]
  refine ⟨?_, ?_, ?_, ?_, ?_⟩
  · exact h.1 "foo"
  · exact h.2.1 "openrouter" "openrouter:glm" sampleModelDef (by decide)
  · exact (h.2.2.1 "openrouter" "z-ai/glm-4.5-air:free" sampleModelDef
      (by decide) (by decide)).1
  · rw [h.2.2.2.1 ⟨2, 100⟩ 30 10 acceptingValidator echoClient [] 0
      sampleBadRequest 0 (by decide)]
    rfl
  · rw [h.2.2.2.2 ⟨2, 100⟩ 30 10 acceptingValidator echoClient [] 0
      sampleRequest 0 sampleModelDef (by decide) (by decide)]
    have hretry : ChatService.executeWithRetry ⟨2, 100⟩ acceptingValidator
        sampleRequest.responseSchema (echoClient sampleModelDef.model) 1
        = (.ok { text := "ok", model := "z-ai/glm-4.5-air:free" }, []) := by
      rw [ChatService.executeWithRetry]
      rfl
    rw [hretry]
    rfl

namespace Hmac

/-- Acceptance condition: `verifyRequest` accepts exactly the requests whose claimed timestamp
parses (JavaScript `parseInt`) to a value within the ±5-minute tolerance
of `now` and whose claimed signature hex-decodes to the same byte
sequence as the recomputed digest. -/
theorem verifyRequest_valid_iff (mac : String → String → String)
    (secret method path body ts sig : String) (now : Int) :
    (verifyRequest mac secret method path body ts sig now).valid = true ↔
      (∃ t, parseIntJS ts = some t ∧
        (now - t).natAbs ≤ TIMESTAMP_TOLERANCE_MS) ∧
      hexDecode sig = hexDecode (mac secret (payloadOf method path body ts)) := by
  unfold verifyRequest
  cases hp : parseIntJS ts with
  | none => simp [hp]
  | some t =>
    simp only [hp, Option.some.injEq]
    by_cases htol : TIMESTAMP_TOLERANCE_MS < (now - t).natAbs
    · rw [if_pos htol]
      simp only [signRequest]
      constructor
      · intro hcontra
        cases hcontra
      · rintro ⟨⟨t', ht', htol'⟩, _⟩
        cases ht'
        omega
    · rw [if_neg htol]
      simp only [signRequest]
      by_cases hlen : (hexDecode sig).length
          ≠ (hexDecode (mac secret (payloadOf method path body ts))).length
      · rw [if_pos hlen]
        constructor
        · intro hcontra
          cases hcontra
        · rintro ⟨_, heq⟩
          exact absurd (by rw [heq]) hlen
      · rw [if_neg hlen]
        by_cases heq : hexDecode sig
            ≠ hexDecode (mac secret (payloadOf method path body ts))
        · rw [if_pos heq]
          constructor
          · intro hcontra
            cases hcontra
          · rintro ⟨_, hcontra⟩
            exact absurd hcontra heq
        · rw [if_neg heq]
          push_neg at heq
          exact ⟨fun _ => ⟨⟨t, rfl, by omega⟩, heq⟩, fun _ => rfl⟩

end Hmac

/-- C4 (amended): `verifyRequest` returns valid exactly when the claimed
timestamp parses under JavaScript `parseInt` semantics to a value within
±5 minutes of the current time and the claimed signature hex-decodes to
the same byte sequence as HMAC-SHA256(secret,
`timestamp:METHOD:path:body`) — signature comparison is over the decoded
bytes, hence case-insensitive in the hex text.  In particular a request
signed by `signRequest` with a fresh timestamp is accepted; a tampered
body, or a signature computed for a different method or path, is
rejected whenever the byte digests differ (no MAC collision); a
timestamp older than 5 minutes, or one that does not parse, is
rejected. -/
theorem hmac_verify_spec (mac : String → String → String)
    (secret method path body ts sig : String) (now : Int) :
    ((Hmac.verifyRequest mac secret method path body ts sig now).valid = true ↔
      (∃ t, Hmac.parseIntJS ts = some t ∧
        (now - t).natAbs ≤ Hmac.TIMESTAMP_TOLERANCE_MS) ∧
      Hmac.hexDecode sig
        = Hmac.hexDecode (mac secret (Hmac.payloadOf method path body ts))) ∧
    (∀ t, Hmac.parseIntJS ts = some t →
      (now - t).natAbs ≤ Hmac.TIMESTAMP_TOLERANCE_MS →
      (Hmac.verifyRequest mac secret method path body ts
          ((Hmac.signRequest mac secret method path body ts).signature)
          now).valid = true) ∧
    (∀ method' path' body' sig',
      Hmac.hexDecode sig'
        ≠ Hmac.hexDecode (mac secret (Hmac.payloadOf method' path' body' ts)) →
      (Hmac.verifyRequest mac secret method' path' body' ts sig' now).valid
        = false) ∧
    (∀ t, Hmac.parseIntJS ts = some t →
      Hmac.TIMESTAMP_TOLERANCE_MS < (now - t).natAbs →
      (Hmac.verifyRequest mac secret method path body ts sig now).valid
        = false) ∧
    (Hmac.parseIntJS ts = none →
      (Hmac.verifyRequest mac secret method path body ts sig now).valid
        = false) := by
  refine ⟨Hmac.verifyRequest_valid_iff mac secret method path body ts sig now,
    ?_, ?_, ?_, ?_⟩
  · intro t hparse htol
    exact (Hmac.verifyRequest_valid_iff mac secret method path body ts _ now).mpr
      ⟨⟨t, hparse, htol⟩, rfl⟩
  · intro method' path' body' sig' hne
    have h := Hmac.verifyRequest_valid_iff mac secret method' path' body' ts sig' now
    cases hv : (Hmac.verifyRequest mac secret method' path' body' ts sig' now).valid
    · rfl
    · exact absurd (h.mp hv).2 hne
  · intro t hparse htol
    have h := Hmac.verifyRequest_valid_iff mac secret method path body ts sig now
    cases hv : (Hmac.verifyRequest mac secret method path body ts sig now).valid
    · rfl
    · obtain ⟨⟨t', ht', htol'⟩, _⟩ := h.mp hv
      rw [hparse] at ht'
      cases ht'
      omega
  · intro hparse
    have h := Hmac.verifyRequest_valid_iff mac secret method path body ts sig now
    cases hv : (Hmac.verifyRequest mac secret method path body ts sig now).valid
    · rfl
    · obtain ⟨⟨t', ht', _⟩, _⟩ := h.mp hv
      rw [hparse] at ht'
      cases ht'

/-- C4 counterexample: the claimed signature is compared after hex
decoding, so the uppercase text `AB` is accepted even though it does not
equal the digest string `ab` — acceptance is not string equality with
the HMAC output; and timestamp `7x`, which is not an integer, parses via
JavaScript `parseInt` to `7` and is accepted. -/
theorem hmac_verify_counterexample :
    (Hmac.verifyRequest sampleMac "s" "post" "/p" "b" "0" "AB" 0).valid
      = true ∧
    "AB" ≠ sampleMac "s" (Hmac.payloadOf "post" "/p" "b" "0") ∧
    "7x".data.all Char.isDigit = false ∧
    (Hmac.verifyRequest sampleMac "s" "post" "/p" "b" "7x" "ab" 0).valid
      = true := by
  refine ⟨by decide, by decide, by decide, by decide⟩

/-- C4 witness: under the collision-free stand-in MAC, a freshly signed
request round-trips to valid; a tampered body is rejected; a stale
timestamp (400100 ms in the past) is rejected; an unparseable timestamp
is rejected. -/
theorem hmac_verify_spec_witness :
    (Hmac.verifyRequest sampleMac2 "secret" "post" "/v1/chat" "\x7b\x7d" "100"
        ((Hmac.signRequest sampleMac2 "secret" "post" "/v1/chat" "\x7b\x7d"
          "100").signature) 50).valid = true ∧
    (Hmac.verifyRequest sampleMac2 "secret" "post" "/v1/chat" "tampered"
        "100" "ab" 50).valid = false ∧
    (Hmac.verifyRequest sampleMac2 "secret" "post" "/v1/chat" "\x7b\x7d" "100"
        "ab" 400200).valid = false ∧
    (Hmac.verifyRequest sampleMac2 "secret" "post" "/v1/chat" "\x7b\x7d" "zz"
        "ab" 50).valid = false := by
  have h1 := hmac_verify_spec sampleMac2 "secret" "post" "/v1/chat" "\x7b\x7d"
    "100" "ab" 50
  have h2 := hmac_verify_spec sampleMac2 "secret" "post" "/v1/chat" "\x7b\x7d"
    "100" "ab" 400200
  have h3 := hmac_verify_spec sampleMac2 "secret" "post" "/v1/chat" "\x7b\x7d"
    "zz" "ab" 50
  refine ⟨h1.2.1 100 (by decide) (by decide), ?_, ?_, ?_⟩
  · exact h1.2.2.1 "post" "/v1/chat" "tampered" "ab" (by decide)
  · exact h2.2.2.2.1 100 (by decide) (by decide)
  · exact h3.2.2.2.2 (by decide)

/-- Classification facts about the shared HTTP-error handler, generic in
the provider name of the default message. -/
theorem handleHttpErrorCore_spec (pname : String) :
    (∀ text parsed,
      (handleHttpErrorCore pname 429 text parsed).code = .PROVIDER_RATE_LIMITED ∧
      (handleHttpErrorCore pname 429 text parsed).retryable = true) ∧
    (∀ s text parsed, s = 401 ∨ s = 403 →
      (handleHttpErrorCore pname s text parsed).code = .PROVIDER_AUTH_FAILED ∧
      (handleHttpErrorCore pname s text parsed).retryable = false) ∧
    (∀ s text parsed, 500 ≤ s →
      (handleHttpErrorCore pname s text parsed).code = .PROVIDER_ERROR ∧
      (handleHttpErrorCore pname s text parsed).retryable = true) ∧
    (∀ s text parsed, 400 ≤ s → s < 500 → s ≠ 429 → s ≠ 401 → s ≠ 403 →
      (handleHttpErrorCore pname s text parsed).code = .PROVIDER_ERROR ∧
      (handleHttpErrorCore pname s text parsed).retryable = false) ∧
    (∀ s text m, m ≠ "" →
      (handleHttpErrorCore pname s text (.parsedWith m)).message = m) ∧
    (∀ s text,
      (handleHttpErrorCore pname s text .unparseable).message
        = pname ++ " HTTP " ++ toString s ∧
      (handleHttpErrorCore pname s text .parsedWithout).message
        = pname ++ " HTTP " ++ toString s) := by
  refine ⟨?_, ?_, ?_, ?_, ?_, ?_⟩
  · intro text parsed
    exact ⟨rfl, rfl⟩
  · rintro s text parsed (rfl | rfl) <;> exact ⟨rfl, rfl⟩
  · intro s text parsed h
    have h429 : (s == 429) = false := beq_eq_false_iff_ne.mpr (by omega)
    have h401 : (s == 401) = false := beq_eq_false_iff_ne.mpr (by omega)
    have h403 : (s == 403) = false := beq_eq_false_iff_ne.mpr (by omega)
    have h500 : decide (500 ≤ s) = true := decide_eq_true h
    constructor <;>
      simp [handleHttpErrorCore, h429, h401, h403, h500]
  · intro s text parsed _ _ hne429 hne401 hne403
    have h429 : (s == 429) = false := beq_eq_false_iff_ne.mpr hne429
    have h401 : (s == 401) = false := beq_eq_false_iff_ne.mpr hne401
    have h403 : (s == 403) = false := beq_eq_false_iff_ne.mpr hne403
    have h500 : decide (500 ≤ s) = false := decide_eq_false (by omega)
    constructor <;>
      simp [handleHttpErrorCore, h429, h401, h403, h500]
  · intro s text m hm
    have hb : (m == "") = false := beq_eq_false_iff_ne.mpr hm
    simp [handleHttpErrorCore, hb]
  · intro s text
    exact ⟨rfl, rfl⟩

/-- C6 (amended): both HTTP provider adapters classify a non-success
upstream status as: 429 → `PROVIDER_RATE_LIMITED`, retryable; 401/403 →
`PROVIDER_AUTH_FAILED`, non-retryable; any status ≥ 500 → retryable
`PROVIDER_ERROR`; any other 4xx → non-retryable `PROVIDER_ERROR`.  The
error message is the upstream body's `error.message` when the body
parses as JSON and carries a non-empty one; otherwise (unparseable body,
or a JSON body without an error message) it is the generic
`<provider> HTTP <status>` message. -/
theorem provider_http_error_classification :
    ((∀ text parsed,
      (OpenRouterClient.handleHttpError 429 text parsed).code
        = .PROVIDER_RATE_LIMITED ∧
      (OpenRouterClient.handleHttpError 429 text parsed).retryable = true) ∧
    (∀ s text parsed, s = 401 ∨ s = 403 →
      (OpenRouterClient.handleHttpError s text parsed).code
        = .PROVIDER_AUTH_FAILED ∧
      (OpenRouterClient.handleHttpError s text parsed).retryable = false) ∧
    (∀ s text parsed, 500 ≤ s →
      (OpenRouterClient.handleHttpError s text parsed).code = .PROVIDER_ERROR ∧
      (OpenRouterClient.handleHttpError s text parsed).retryable = true) ∧
    (∀ s text parsed, 400 ≤ s → s < 500 → s ≠ 429 → s ≠ 401 → s ≠ 403 →
      (OpenRouterClient.handleHttpError s text parsed).code = .PROVIDER_ERROR ∧
      (OpenRouterClient.handleHttpError s text parsed).retryable = false) ∧
    (∀ s text m, m ≠ "" →
      (OpenRouterClient.handleHttpError s text (.parsedWith m)).message = m) ∧
    (∀ s text,
      (OpenRouterClient.handleHttpError s text .unparseable).message
        = "OpenRouter HTTP " ++ toString s ∧
      (OpenRouterClient.handleHttpError s text .parsedWithout).message
        = "OpenRouter HTTP " ++ toString s)) ∧
    ((∀ text parsed,
      (EigenCloudClient.handleHttpError 429 text parsed).code
        = .PROVIDER_RATE_LIMITED ∧
      (EigenCloudClient.handleHttpError 429 text parsed).retryable = true) ∧
    (∀ s text parsed, s = 401 ∨ s = 403 →
      (EigenCloudClient.handleHttpError s text parsed).code
        = .PROVIDER_AUTH_FAILED ∧
      (EigenCloudClient.handleHttpError s text parsed).retryable = false) ∧
    (∀ s text parsed, 500 ≤ s →
      (EigenCloudClient.handleHttpError s text parsed).code = .PROVIDER_ERROR ∧
      (EigenCloudClient.handleHttpError s text parsed).retryable = true) ∧
    (∀ s text parsed, 400 ≤ s → s < 500 → s ≠ 429 → s ≠ 401 → s ≠ 403 →
      (EigenCloudClient.handleHttpError s text parsed).code = .PROVIDER_ERROR ∧
      (EigenCloudClient.handleHttpError s text parsed).retryable = false) ∧
    (∀ s text m, m ≠ "" →
      (EigenCloudClient.handleHttpError s text (.parsedWith m)).message = m) ∧
    (∀ s text,
      (EigenCloudClient.handleHttpError s text .unparseable).message
        = "EigenCloud HTTP " ++ toString s ∧
      (EigenCloudClient.handleHttpError s text .parsedWithout).message
        = "EigenCloud HTTP " ++ toString s)) := by
  exact ⟨handleHttpErrorCore_spec "OpenRouter",
    handleHttpErrorCore_spec "EigenCloud"⟩

/-- C6 counterexample: an upstream body that parses as JSON but carries
no `error.message` (for example `{}`) still yields the generic
`OpenRouter HTTP 418` message, so "the message comes from the body when
it parses as JSON" fails as stated. -/
theorem provider_http_error_counterexample :
    (OpenRouterClient.handleHttpError 418 "\x7b\x7d" .parsedWithout).message
      = "OpenRouter HTTP 418" ∧
    ErrorBodyParse.parsedWithout ≠ ErrorBodyParse.unparseable := by
  exact ⟨rfl, by decide⟩

/-- C6 witness: 401 is a non-retryable auth failure, 503 a retryable
provider error, 404 a non-retryable provider error, and a parsed
`error.message` body surfaces its message. -/
theorem provider_http_error_classification_witness :
    (OpenRouterClient.handleHttpError 401 "" .unparseable).code
      = .PROVIDER_AUTH_FAILED ∧
    (OpenRouterClient.handleHttpError 503 "" .unparseable).retryable = true ∧
    (OpenRouterClient.handleHttpError 404 "" .unparseable).retryable = false ∧
    (EigenCloudClient.handleHttpError 503 "" .unparseable).code
      = .PROVIDER_ERROR ∧
    (EigenCloudClient.handleHttpError 429 "" (.parsedWith "boom")).message
      = "boom" := by
  have h := provider_http_error_classification
  refine ⟨(h.1.2.1 401 "" .unparseable (Or.inl rfl)).1,
    (h.1.2.2.1 503 "" .unparseable (by omega)).2,
    (h.1.2.2.2.1 404 "" .unparseable (by omega) (by omega) (by omega)
      (by omega) (by omega)).2,
    (h.2.2.2.1 503 "" .unparseable (by omega)).1,
    h.2.2.2.2.2.1 429 "" "boom" (by decide)⟩

/-- C7 (amended): only the OpenRouter adapter rejects a placeholder
model identifier (`openrouter:`-prefixed) before its network call, with
the non-retryable `LLM_MODEL_NOT_CONFIGURED` error; the OpenAI and
EigenCloud adapters perform no placeholder check — they build the
upstream request body carrying the given model identifier unchanged and
proceed to the network call. -/
theorem placeholder_model_rejection :
    (∀ name messages temperature maxTokens responseSchema,
      ∃ e, OpenRouterClient.chatPreflight ("openrouter:" ++ name) messages
          temperature maxTokens responseSchema = .error e ∧
        e.code = .LLM_MODEL_NOT_CONFIGURED ∧ e.retryable = false) ∧
    (∀ model messages temperature maxTokens responseSchema,
      ∃ b, EigenCloudClient.chatPreflight model messages temperature maxTokens
          responseSchema = .ok b ∧ b.model = model) ∧
    (∀ model messages temperature maxTokens responseSchema,
      ∃ p, OpenAIClient.chatPreflight model messages temperature maxTokens
          responseSchema = .ok p ∧ p.model = model) := by
  refine ⟨?_, ?_, ?_⟩
  · intro name messages temperature maxTokens responseSchema
    have hpre := JsString.startsWith_append "openrouter:" name
    unfold OpenRouterClient.chatPreflight
    rw [hpre]
    exact ⟨_, rfl, rfl, rfl⟩
  · intro model messages temperature maxTokens responseSchema
    exact ⟨_, rfl, rfl⟩
  · intro model messages temperature maxTokens responseSchema
    exact ⟨_, rfl, rfl⟩

/-- C7 counterexample: the EigenCloud adapter passes the placeholder
`eigencloud:foo` straight into the upstream request body and proceeds to
the network call instead of failing with `LLM_MODEL_NOT_CONFIGURED`; the
OpenAI adapter likewise performs no check. -/
theorem placeholder_model_counterexample :
    EigenCloudClient.chatPreflight "eigencloud:foo" [] (7 / 10) none none
      = .ok { model := "eigencloud:foo", messages := [], seed := 42,
              temperature := some (7 / 10), max_tokens := none,
              response_format_json_object := false } ∧
    (EigenCloudClient.chatPreflight "eigencloud:foo" [] (7 / 10) none
      none).isOk = true ∧
    (OpenAIClient.chatPreflight "openai:gpt" [] (7 / 10) none none).isOk
      = true := by
  exact ⟨rfl, rfl, rfl⟩

/-- C10: the OpenAI adapter omits the caller-supplied temperature from
the upstream parameters exactly when the model identifier contains
`gpt-5` or starts with `o1` or `o3` (a reasoning model); for every other
model the supplied temperature is forwarded, and the TypeScript
parameter default supplies `0.7` when the caller omitted it. -/
theorem openai_reasoning_temperature (model : String)
    (messages : List ChatMessage) (temperature : ℚ) (maxTokens : Option Nat)
    (responseSchema : Option Json) :
    (OpenAIClient.isReasoningModel model = true →
      ∃ p, OpenAIClient.chatPreflight model messages temperature maxTokens
          responseSchema = .ok p ∧ p.temperature = none) ∧
    (OpenAIClient.isReasoningModel model = false →
      ∃ p, OpenAIClient.chatPreflight model messages temperature maxTokens
          responseSchema = .ok p ∧ p.temperature = some temperature) ∧
    (OpenAIClient.isReasoningModel model = true ↔
      (JsString.includes model "gpt-5" = true
        ∨ JsString.startsWith model "o1" = true
        ∨ JsString.startsWith model "o3" = true)) ∧
    OpenAIClient.resolveTemperature none = 7 / 10 ∧
    (∀ q : ℚ, OpenAIClient.resolveTemperature (some q) = q) := by
  refine ⟨?_, ?_, ?_, rfl, fun q => rfl⟩
  · intro h
    refine ⟨_, rfl, ?_⟩
    simp [OpenAIClient.chatPreflight, h]
  · intro h
    refine ⟨_, rfl, ?_⟩
    simp [OpenAIClient.chatPreflight, h]
  · unfold OpenAIClient.isReasoningModel
    simp [Bool.or_eq_true]
    tauto

/-- C10 witness: `gpt-5-nano` (contains `gpt-5`) and `o1-mini` (starts
with `o1`) omit the temperature; `gpt-4o` forwards it. -/
theorem openai_reasoning_temperature_witness :
    (∃ p, OpenAIClient.chatPreflight "gpt-5-nano" [] (7 / 10) none none
      = .ok p ∧ p.temperature = none) ∧
    (∃ p, OpenAIClient.chatPreflight "gpt-4o" [] (1 / 2) none none
      = .ok p ∧ p.temperature = some (1 / 2)) ∧
    (∃ p, OpenAIClient.chatPreflight "o1-mini" [] (1 / 2) none none
      = .ok p ∧ p.temperature = none) := by
  have h1 := openai_reasoning_temperature "gpt-5-nano" [] (7 / 10) none none
  have h2 := openai_reasoning_temperature "gpt-4o" [] (1 / 2) none none
  have h3 := openai_reasoning_temperature "o1-mini" [] (1 / 2) none none
  exact ⟨h1.1 (by decide), h2.2.1 (by decide), h3.1 (by decide)⟩

end LlmService
